import Mathlib

/-!
# Verification of the LANChat server core (`app.py`)

A shallow embedding of the Flask/Socket.IO LAN chat server in `app.py`:
the global-password access gate (`login`, `set_global_password`,
`get_global_password`), the durable message log (`ChatMessage`,
`handle_send_message`, the `chat` history query), the in-memory presence
registry (`online_users`, `handle_connect`, `handle_disconnect`), and the
`logout` route.

Python `dict` state is modelled as an insertion-ordered association list,
the SQL store as an explicit record, Python truthiness of optional strings
explicitly, and the Socket.IO emits as a list of emitted events.
-/

set_option autoImplicit false

namespace LANChat

/-- A persisted chat message row: `ChatMessage(db.Model)` with autoincrement
primary key `id`, `username`, `message`, and `timestamp` (server clock,
modelled as `Nat`). -/
structure ChatMessage where
  id : Nat
  username : String
  message : String
  timestamp : Nat
deriving Repr, DecidableEq

/-- The `GlobalConfig(db.Model)` row: a nullable `chat_password` column. -/
structure GlobalConfig where
  chat_password : Option String
deriving Repr, DecidableEq

/-- The durable datastore: at most one `GlobalConfig` row, the list of
`ChatMessage` rows in insertion order, and the next autoincrement id. -/
structure DB where
  globalConfig : Option GlobalConfig
  messages : List ChatMessage
  nextId : Nat
deriving Repr, DecidableEq

/-- The freshly created database (`db.create_all()` on an empty store). -/
def emptyDB : DB := ⟨none, [], 0⟩

/-- Python `str.strip()`: remove leading and trailing whitespace. -/
def pyStrip (s : String) : String :=
  ⟨((s.data.dropWhile Char.isWhitespace).reverse.dropWhile Char.isWhitespace).reverse⟩

/-- Python truthiness of an optional string: `None` and `""` are falsy. -/
def truthyStr : Option String → Bool
  | none => false
  | some s => !(s == "")

/-- `get_global_password()`: the `chat_password` of the first `GlobalConfig`
row if one exists, else `None`. -/
def get_global_password (db : DB) : Option String :=
  match db.globalConfig with
  | some config => config.chat_password
  | none => none

/-- `set_global_password(new_pass)`: create the `GlobalConfig` row if absent,
otherwise overwrite its `chat_password`; then commit. -/
def set_global_password (new_pass : String) (db : DB) : DB :=
  match db.globalConfig with
  | none => { db with globalConfig := some ⟨some new_pass⟩ }
  | some _ => { db with globalConfig := some ⟨some new_pass⟩ }

/-- The outcome category of a `POST /login` request, one per `flash`/redirect
branch of `login()`. -/
inductive LoginResult
  | usernameMissing
  | secretRequired
  | incorrectSecret
  | success
deriving Repr, DecidableEq

/-- A Socket.IO event emitted by the server. -/
inductive Event
  | user_joined (username : String)
  | user_left (username : String)
  | update_presence (online_users : List String)
  | receive_message (username message : String) (timestamp : Nat)
  | error_message (error : String)
  | file_uploaded (filename username : String)
deriving Repr, DecidableEq

/-- The full effect of one `POST /login` request: resulting datastore,
resulting session `username` binding, emitted Socket.IO events, and the
outcome category. -/
structure LoginStep where
  db : DB
  session : Option String
  events : List Event
  result : LoginResult
deriving Repr, DecidableEq

/-- `login()` on POST: strip the form fields; reject an empty username;
if no global password is set, a non-empty password installs it (else
`SecretRequired`); otherwise the password must equal the stored one
(else `IncorrectSecret`); on success bind `session['username']` and
broadcast `user_joined`. -/
def login (db : DB) (sess : Option String) (rawUsername rawPassword : String) :
    LoginStep :=
  let global_password := get_global_password db
  let username := pyStrip rawUsername
  let password := pyStrip rawPassword
  if username = "" then
    ⟨db, sess, [], .usernameMissing⟩
  else if truthyStr global_password = false then
    if password = "" then
      ⟨db, sess, [], .secretRequired⟩
    else
      ⟨set_global_password password db, some username,
        [.user_joined username], .success⟩
  else
    if password = global_password.getD "" then
      ⟨db, some username, [.user_joined username], .success⟩
    else
      ⟨db, sess, [], .incorrectSecret⟩

/-- The datastore effect of one login request (the session does not
influence the datastore transition of `login()`). -/
def loginDB (db : DB) (form : String × String) : DB :=
  (login db none form.1 form.2).db

/-- The datastore after a sequence of `POST /login` requests. -/
def runLogins (ops : List (String × String)) (db : DB) : DB :=
  ops.foldl loginDB db

example : (login emptyDB none "alice" "pw").result = .success := by decide
example : get_global_password (login emptyDB none "alice" "pw").db = some "pw" := by
  decide
example : (login emptyDB none "alice" "").result = .secretRequired := by decide
example : (login emptyDB none "  " "x").result = .usernameMissing := by decide

/-! ## The in-memory presence registry (`online_users` dict) -/

/-- The `online_users` dict: socket session id → username, as an
insertion-ordered association list (the Python `dict` model). -/
abbrev OnlineUsers := List (Nat × String)

/-- Python `d[k] = v`: overwrite in place if the key is present (keeping its
position, as CPython dicts do), else append at the end. -/
def dictInsert (k : Nat) (v : String) : OnlineUsers → OnlineUsers
  | [] => [(k, v)]
  | (k', v') :: rest =>
    if k = k' then (k, v) :: rest else (k', v') :: dictInsert k v rest

/-- Python `k in d` / `d.get(k)`: the value stored under `k`, if any. -/
def dictLookup (k : Nat) : OnlineUsers → Option String
  | [] => none
  | (k', v') :: rest => if k = k' then some v' else dictLookup k rest

/-- The mutation performed by Python `d.pop(k, None)`: drop the entry for
`k` if present, else leave the dict unchanged (no error). -/
def dictPop (k : Nat) : OnlineUsers → OnlineUsers
  | [] => []
  | (k', v') :: rest => if k = k' then rest else (k', v') :: dictPop k rest

/-- `list(online_users.values())`: the presence snapshot broadcast to
clients and rendered on the chat page. -/
def snapshot (ou : OnlineUsers) : List String := ou.map Prod.snd

/-- `True` iff some connection other than `sid` carries username `u`. -/
def hasOtherConn (sid : Nat) (u : String) (ou : OnlineUsers) : Bool :=
  ou.any fun e => (!(e.1 == sid)) && (e.2 == u)

/-! ## Socket.IO handlers -/

/-- `handle_connect()`: `username = session.get('username')`; only a
truthy username (present and non-empty) is registered in `online_users`
with an `update_presence` broadcast; otherwise the handler returns
`False` (refuse the connection). Result: new registry, emitted events,
and whether the connection was accepted. -/
def handle_connect (sess : Option String) (sid : Nat) (ou : OnlineUsers) :
    OnlineUsers × List Event × Bool :=
  match sess with
  | some username =>
    if username = "" then (ou, [], false)
    else
      let ou' := dictInsert sid username ou
      (ou', [.update_presence (snapshot ou')], true)
  | none => (ou, [], false)

/-- `handle_disconnect()`: `online_users.pop(request.sid, None)`; if that
returned a (truthy) username, broadcast `update_presence`. -/
def handle_disconnect (sid : Nat) (ou : OnlineUsers) :
    OnlineUsers × List Event :=
  let username := dictLookup sid ou
  let ou' := dictPop sid ou
  match username with
  | some u =>
    if u == "" then (ou', []) else (ou', [.update_presence (snapshot ou')])
  | none => (ou', [])

/-- The row committed by `ChatMessage(username=..., message=...)` plus
`db.session.add`/`commit`: the store assigns the next id and the server
timestamp. Returns the updated store and the stored row. -/
def db_append (db : DB) (username message : String) (now : Nat) :
    DB × ChatMessage :=
  let chat_msg : ChatMessage := ⟨db.nextId, username, message, now⟩
  ({ db with messages := db.messages ++ [chat_msg], nextId := db.nextId + 1 },
    chat_msg)

/-- `handle_send_message(data)`: author is `session.get('username',
'Anonymous')`; a falsy (`None` or empty) `data.get('message')` falls
through silently; otherwise the row is committed and `receive_message`
broadcast. `persistOk = false` models `db.session.commit()` raising, in
which case nothing is committed and the `except` branch emits
`error_message` to the sender. -/
def handle_send_message (persistOk : Bool) (sess : Option String)
    (data : Option String) (now : Nat) (db : DB) : DB × List Event :=
  let username := sess.getD "Anonymous"
  match data with
  | some message =>
    if message = "" then (db, [])
    else if persistOk then
      let (db', chat_msg) := db_append db username message now
      (db', [.receive_message username message chat_msg.timestamp])
    else
      (db, [.error_message "Failed to send message."])
  | none => (db, [])

/-! ## The history query of the `chat` route

`ChatMessage.query.order_by(ChatMessage.timestamp).all()` orders the rows
by timestamp alone. SQL guarantees no more than that: the relative order
of rows with equal sort keys is unspecified (PostgreSQL's sort is not
stable), so the query denotes a relation between the store and the
returned row list, not a function. -/

/-- Strict lexicographic order on messages: earlier timestamp first, ties
broken by the store-assigned id. -/
def msgLexLt (a b : ChatMessage) : Prop :=
  a.timestamp < b.timestamp ∨ (a.timestamp = b.timestamp ∧ a.id < b.id)

instance : DecidableRel msgLexLt := fun a b =>
  inferInstanceAs (Decidable
    (a.timestamp < b.timestamp ∨ (a.timestamp = b.timestamp ∧ a.id < b.id)))

/-- Non-decreasing timestamps (all that `ORDER BY timestamp` promises). -/
def msgTsLe (a b : ChatMessage) : Prop := a.timestamp ≤ b.timestamp

instance : DecidableRel msgTsLe := fun a b =>
  inferInstanceAs (Decidable (a.timestamp ≤ b.timestamp))

/-- Strictly increasing timestamps. -/
def msgTsLt (a b : ChatMessage) : Prop := a.timestamp < b.timestamp

instance : DecidableRel msgTsLt := fun a b =>
  inferInstanceAs (Decidable (a.timestamp < b.timestamp))

instance : IsAntisymm ChatMessage msgTsLt :=
  ⟨fun _ _ h1 h2 => absurd (Nat.lt_trans h1 h2) (Nat.lt_irrefl _)⟩

/-- Distinct timestamps. -/
def msgTsNe (a b : ChatMessage) : Prop := a.timestamp ≠ b.timestamp

instance : DecidableRel msgTsNe := fun a b =>
  inferInstanceAs (Decidable (a.timestamp ≠ b.timestamp))

/-- The row lists `ChatMessage.query.order_by(ChatMessage.timestamp).all()`
may return on a given store: any permutation of the stored rows whose
timestamps are non-decreasing. Every execution of the query yields such a
list, and nothing narrower is guaranteed. -/
def IsHistoryResult (db : DB) (l : List ChatMessage) : Prop :=
  l.Perm db.messages ∧ l.Pairwise msgTsLe

instance (db : DB) (l : List ChatMessage) : Decidable (IsHistoryResult db l) :=
  inferInstanceAs (Decidable (l.Perm db.messages ∧ l.Pairwise msgTsLe))

/-! ## Whole-server state and the remaining routes -/

/-- The whole mutable server state: the durable store plus the in-memory
`online_users` dict. -/
structure ServerState where
  db : DB
  online_users : OnlineUsers
deriving DecidableEq

/-- The effect of `GET /logout`: behind `login_required` (a session with no
username is redirected to the login page untouched); otherwise
`session.pop('username', None)` clears the binding and `user_left` is
broadcast. The datastore and `online_users` are not touched. -/
structure LogoutStep where
  session : Option String
  state : ServerState
  events : List Event
deriving DecidableEq

/-- `logout()` as a transition on session and server state. -/
def logout (sess : Option String) (st : ServerState) : LogoutStep :=
  match sess with
  | some u => ⟨none, st, [.user_left u]⟩
  | none => ⟨sess, st, []⟩

/-- A datastore with the secret `"pw"` installed. -/
def pwDB : DB := set_global_password "pw" emptyDB

/-- An example store with a timestamp tie between ids 0 and 1. -/
def tieDB : DB :=
  ⟨none, [⟨0, "a", "m0", 5⟩, ⟨1, "b", "m1", 5⟩], 2⟩

/-- An example store with pairwise distinct timestamps. -/
def distinctDB : DB :=
  ⟨none, [⟨0, "a", "m0", 5⟩, ⟨1, "b", "m1", 3⟩], 2⟩

/-! ## Supporting lemmas: the access gate -/

theorem get_set_global_password (p : String) (db : DB) :
    get_global_password (set_global_password p db) = some p := by
  cases h : db.globalConfig <;>
    simp [set_global_password, get_global_password, h]

/-- When a (truthy) secret is installed, `login` never writes to the
datastore, in any of its branches. -/
theorem login_db_of_truthy (db : DB) (sess : Option String) (u p : String)
    (h : truthyStr (get_global_password db) = true) :
    (login db sess u p).db = db := by
  simp only [login]
  split_ifs with h1 h2 h3 <;> simp_all

/-- A whole sequence of login requests leaves an installed secret's
datastore untouched. -/
theorem runLogins_of_truthy (ops : List (String × String)) (db : DB)
    (h : truthyStr (get_global_password db) = true) :
    runLogins ops db = db := by
  induction ops generalizing db with
  | nil => rfl
  | cons op rest ih =>
    have hdb : loginDB db op = db := login_db_of_truthy db none op.1 op.2 h
    calc runLogins (op :: rest) db = runLogins rest (loginDB db op) := by
          simp [runLogins]
    _ = runLogins rest db := by rw [hdb]
    _ = db := ih db h

/-- A successful login against an unset secret installs the stripped
password, which is non-empty, and the installed secret is truthy. -/
theorem login_installs (db : DB) (sess : Option String) (u p : String)
    (hunset : truthyStr (get_global_password db) = false)
    (hsucc : (login db sess u p).result = .success) :
    get_global_password (login db sess u p).db = some (pyStrip p) ∧
    pyStrip p ≠ "" ∧
    truthyStr (get_global_password (login db sess u p).db) = true := by
  simp only [login] at hsucc ⊢
  split_ifs at hsucc ⊢ with h1 h2
  simp_all [get_set_global_password, truthyStr]

/-! ## Supporting lemmas: the presence dict -/

theorem dictLookup_dictInsert_self (k : Nat) (v : String) (ou : OnlineUsers) :
    dictLookup k (dictInsert k v ou) = some v := by
  induction ou with
  | nil => simp [dictInsert, dictLookup]
  | cons e rest ih =>
    obtain ⟨k', v'⟩ := e
    by_cases h : k = k' <;> simp [dictInsert, dictLookup, h, ih]

theorem snapshot_cons (k : Nat) (v : String) (rest : OnlineUsers) :
    snapshot ((k, v) :: rest) = v :: snapshot rest := rfl

theorem hasOtherConn_cons (sid : Nat) (u : String) (k : Nat) (v : String)
    (rest : OnlineUsers) :
    hasOtherConn sid u ((k, v) :: rest)
      = (((!(k == sid)) && (v == u)) || hasOtherConn sid u rest) := rfl

theorem mem_snapshot_dictInsert (k : Nat) (v : String) (ou : OnlineUsers) :
    v ∈ snapshot (dictInsert k v ou) := by
  induction ou with
  | nil => simp [dictInsert, snapshot]
  | cons e rest ih =>
    obtain ⟨k', v'⟩ := e
    by_cases h : k = k'
    · rw [dictInsert, if_pos h, snapshot_cons]
      exact List.mem_cons_self v _
    · rw [dictInsert, if_neg h, snapshot_cons]
      exact List.mem_cons_of_mem v' ih

theorem dictLookup_eq_none_of_not_mem_keys (k : Nat) (ou : OnlineUsers)
    (h : k ∉ ou.map Prod.fst) : dictLookup k ou = none := by
  induction ou with
  | nil => rfl
  | cons e rest ih =>
    obtain ⟨k', v'⟩ := e
    simp only [List.map_cons, List.mem_cons, not_or] at h
    simp [dictLookup, h.1, ih h.2]

theorem dictPop_of_absent (k : Nat) (ou : OnlineUsers)
    (h : dictLookup k ou = none) : dictPop k ou = ou := by
  induction ou with
  | nil => rfl
  | cons e rest ih =>
    obtain ⟨k', v'⟩ := e
    by_cases hk : k = k' <;> simp_all [dictLookup, dictPop, hk]

theorem dictLookup_dictPop_self (k : Nat) (ou : OnlineUsers)
    (h : (ou.map Prod.fst).Nodup) : dictLookup k (dictPop k ou) = none := by
  induction ou with
  | nil => rfl
  | cons e rest ih =>
    obtain ⟨k', v'⟩ := e
    simp only [List.map_cons, List.nodup_cons] at h
    by_cases hk : k = k'
    · rw [dictPop, if_pos hk]
      exact dictLookup_eq_none_of_not_mem_keys k rest (hk ▸ h.1)
    · rw [dictPop, if_neg hk, dictLookup, if_neg hk]
      exact ih h.2

theorem hasOtherConn_of_not_key (sid : Nat) (u : String) (ou : OnlineUsers)
    (h : sid ∉ ou.map Prod.fst) :
    (hasOtherConn sid u ou = true) ↔ u ∈ snapshot ou := by
  induction ou with
  | nil => simp [hasOtherConn, snapshot]
  | cons e rest ih =>
    obtain ⟨k, v⟩ := e
    simp only [List.map_cons, List.mem_cons, not_or] at h
    have hk : (k == sid) = false := by
      simp only [beq_eq_false_iff_ne, ne_eq]
      exact fun he => h.1 he.symm
    rw [hasOtherConn_cons, hk]
    simp only [Bool.not_false, Bool.true_and, Bool.or_eq_true, beq_iff_eq]
    rw [ih h.2, snapshot_cons, List.mem_cons]
    exact or_congr eq_comm Iff.rfl

theorem mem_snapshot_dictPop (sid : Nat) (u : String) (ou : OnlineUsers)
    (h : (ou.map Prod.fst).Nodup) :
    (u ∈ snapshot (dictPop sid ou)) ↔ hasOtherConn sid u ou = true := by
  induction ou with
  | nil => simp [dictPop, snapshot, hasOtherConn]
  | cons e rest ih =>
    obtain ⟨k, v⟩ := e
    simp only [List.map_cons, List.nodup_cons] at h
    by_cases hk : sid = k
    · rw [dictPop, if_pos hk, hasOtherConn_cons]
      have hks : (k == sid) = true := by simp [hk]
      rw [hks]
      simp only [Bool.not_true, Bool.false_and, Bool.false_or]
      refine (hasOtherConn_of_not_key sid u rest ?_).symm
      rw [hk]
      exact h.1
    · rw [dictPop, if_neg hk, hasOtherConn_cons]
      have hks : (k == sid) = false := by
        simp only [beq_eq_false_iff_ne, ne_eq]
        exact fun he => hk he.symm
      rw [hks]
      simp only [Bool.not_false, Bool.true_and, Bool.or_eq_true, beq_iff_eq]
      rw [← ih h.2, snapshot_cons, List.mem_cons]
      exact or_congr eq_comm Iff.rfl

theorem handle_disconnect_fst (sid : Nat) (ou : OnlineUsers) :
    (handle_disconnect sid ou).1 = dictPop sid ou := by
  unfold handle_disconnect
  cases dictLookup sid ou with
  | none => rfl
  | some u => by_cases h : u == "" <;> simp [h]

/-! ## Supporting lemmas: the history query -/

/-- Two query results over a store with pairwise distinct timestamps
coincide: both are permutations of the rows, strictly sorted by
timestamp. -/
theorem historyResult_unique (db : DB) (l1 l2 : List ChatMessage)
    (h1 : IsHistoryResult db l1) (h2 : IsHistoryResult db l2)
    (hts : db.messages.Pairwise msgTsNe) : l1 = l2 := by
  have hne1 : l1.Pairwise msgTsNe :=
    (h1.1.pairwise_iff (fun h => Ne.symm h)).mpr hts
  have hne2 : l2.Pairwise msgTsNe :=
    (h2.1.pairwise_iff (fun h => Ne.symm h)).mpr hts
  have hlt1 : l1.Pairwise msgTsLt :=
    (hne1.and h1.2).imp (fun h => Nat.lt_of_le_of_ne h.2 h.1)
  have hlt2 : l2.Pairwise msgTsLt :=
    (hne2.and h2.2).imp (fun h => Nat.lt_of_le_of_ne h.2 h.1)
  exact List.eq_of_perm_of_sorted (h1.1.trans h2.1.symm) hlt1 hlt2

/-! ## The claims -/

/-- C1: For every sequence of login operations, at most one password value
is ever durably installed as the AccessSecret: the first successful login
with a non-empty (trimmed) password installs it (as the stripped password),
and once a secret is installed no later login operation changes the stored
secret — in fact no later login request writes to the datastore at all. -/
theorem C1_access_secret_write_once (db1 db2 : DB) (sess : Option String)
    (u p : String) (ops : List (String × String))
    (h1 : truthyStr (get_global_password db1) = false)
    (h2 : (login db1 sess u p).result = .success)
    (h3 : truthyStr (get_global_password db2) = true) :
    get_global_password (login db1 sess u p).db = some (pyStrip p) ∧
    pyStrip p ≠ "" ∧
    truthyStr (get_global_password (login db1 sess u p).db) = true ∧
    runLogins ops db2 = db2 := by
  obtain ⟨ha, hb, hc⟩ := login_installs db1 sess u p h1 h2
  exact ⟨ha, hb, hc, runLogins_of_truthy ops db2 h3⟩

/-- Witness for C1: the first login installs `"pw"`, and a later sequence
of logins (wrong and right passwords) leaves the store untouched. -/
theorem C1_access_secret_write_once_witness :
    get_global_password (login emptyDB none "alice" "pw").db
        = some (pyStrip "pw") ∧
    pyStrip "pw" ≠ "" ∧
    truthyStr (get_global_password (login emptyDB none "alice" "pw").db)
        = true ∧
    runLogins [("bob", "other"), ("eve", "pw")]
        (login emptyDB none "alice" "pw").db
      = (login emptyDB none "alice" "pw").db :=
  C1_access_secret_write_once emptyDB (login emptyDB none "alice" "pw").db
    none "alice" "pw" [("bob", "other"), ("eve", "pw")]
    (by decide) (by decide) (by decide)

/-- C2 counterexample: with secret `"pw"` installed, a request whose
submitted password `"pw"` is byte-for-byte equal to the stored secret
nevertheless fails and binds no identity (its username is empty), and a
request whose submitted password `" pw"` is not byte-for-byte equal to the
stored secret nevertheless succeeds (the form field is stripped first). -/
theorem C2_counterexample :
    get_global_password pwDB = some "pw" ∧
    (login pwDB none "" "pw").result ≠ LoginResult.success ∧
    (login pwDB none "" "pw").session = none ∧
    (" pw" : String) ≠ "pw" ∧
    (login pwDB none "alice" " pw").result = LoginResult.success := by
  refine ⟨by decide, by decide, by decide, by decide, by decide⟩

/-- C2 (amended): for every login request with a non-empty stripped
username made while a (truthy) AccessSecret exists, the request succeeds —
binding the stripped username as the session identity and emitting
`user_joined` — if and only if the stripped submitted password equals the
stored secret byte-for-byte; otherwise it fails with `IncorrectSecret`,
binds no identity and leaves the store untouched. -/
theorem C2_login_iff_secret_match (db : DB) (sess : Option String)
    (u p : String)
    (hsec : truthyStr (get_global_password db) = true)
    (hu : pyStrip u ≠ "") :
    (get_global_password db = some (pyStrip p) ∧
      login db sess u p
        = ⟨db, some (pyStrip u), [.user_joined (pyStrip u)], .success⟩) ∨
    (get_global_password db ≠ some (pyStrip p) ∧
      login db sess u p = ⟨db, sess, [], .incorrectSecret⟩) := by
  obtain ⟨s, hs⟩ : ∃ s, get_global_password db = some s := by
    cases h : get_global_password db with
    | none => rw [h] at hsec; simp [truthyStr] at hsec
    | some s => exact ⟨s, rfl⟩
  by_cases hp : pyStrip p = s
  · refine Or.inl ⟨by rw [hs, hp], ?_⟩
    simp [login, hu, hs, truthyStr, hsec, hp]
    intro hfalse
    rw [hs] at hsec
    simp [truthyStr] at hsec
    simp [hfalse] at hsec
  · refine Or.inr ⟨by rw [hs]; exact fun he => hp (Option.some.inj he).symm, ?_⟩
    simp [login, hu, hs, truthyStr, hsec, hp]
    intro hfalse
    rw [hs] at hsec
    simp [truthyStr] at hsec
    simp [hfalse] at hsec

/-- Witness for C2 (amended): against the installed secret `"pw"`, the
request (`"bob"`, `"pw"`) matches and succeeds. -/
theorem C2_login_iff_secret_match_witness :
    (get_global_password pwDB = some (pyStrip "pw") ∧
      login pwDB none "bob" "pw"
        = ⟨pwDB, some (pyStrip "bob"),
            [.user_joined (pyStrip "bob")], .success⟩) ∨
    (get_global_password pwDB ≠ some (pyStrip "pw") ∧
      login pwDB none "bob" "pw" = ⟨pwDB, none, [], .incorrectSecret⟩) :=
  C2_login_iff_secret_match pwDB none "bob" "pw" (by decide) (by decide)

/-- C3 counterexample: on a store with a timestamp tie, a list the query
`ORDER BY timestamp` is permitted to return violates the claimed id
tie-break, and two permitted results of the same unchanged store differ,
so re-reads need not be identical. -/
theorem C3_counterexample :
    IsHistoryResult tieDB [⟨1, "b", "m1", 5⟩, ⟨0, "a", "m0", 5⟩] ∧
    IsHistoryResult tieDB [⟨0, "a", "m0", 5⟩, ⟨1, "b", "m1", 5⟩] ∧
    ¬ ([⟨1, "b", "m1", 5⟩, ⟨0, "a", "m0", 5⟩] :
        List ChatMessage).Pairwise msgLexLt ∧
    ([⟨1, "b", "m1", 5⟩, ⟨0, "a", "m0", 5⟩] : List ChatMessage)
      ≠ [⟨0, "a", "m0", 5⟩, ⟨1, "b", "m1", 5⟩] :=
  ⟨by decide, by decide, by decide, by decide⟩

/-- C3 (amended): every result of `history()` contains exactly the
persisted messages in non-decreasing timestamp order; the relative order
of equal-timestamp rows is unspecified, so only on a store whose
timestamps are pairwise distinct are ties absent and any two reads with
no intervening append guaranteed identical. -/
theorem C3_history_timestamp_order (db : DB) (l1 l2 : List ChatMessage)
    (h1 : IsHistoryResult db l1) (h2 : IsHistoryResult db l2)
    (hts : db.messages.Pairwise msgTsNe) :
    l1.Perm db.messages ∧ l1.Pairwise msgTsLe ∧ l1 = l2 :=
  ⟨h1.1, h1.2, historyResult_unique db l1 l2 h1 h2 hts⟩

/-- Witness for the amended C3 on a distinct-timestamp store. -/
theorem C3_history_timestamp_order_witness :
    ([⟨1, "b", "m1", 3⟩, ⟨0, "a", "m0", 5⟩] : List ChatMessage).Perm
        distinctDB.messages ∧
    ([⟨1, "b", "m1", 3⟩, ⟨0, "a", "m0", 5⟩] : List ChatMessage).Pairwise
        msgTsLe ∧
    ([⟨1, "b", "m1", 3⟩, ⟨0, "a", "m0", 5⟩] : List ChatMessage)
      = [⟨1, "b", "m1", 3⟩, ⟨0, "a", "m0", 5⟩] :=
  C3_history_timestamp_order distinctDB
    [⟨1, "b", "m1", 3⟩, ⟨0, "a", "m0", 5⟩]
    [⟨1, "b", "m1", 3⟩, ⟨0, "a", "m0", 5⟩]
    (by decide) (by decide) (by decide)

/-- C4: a `receive_message` broadcast happens only for a message whose
append committed (the broadcast row is in the durable store), and when the
commit raises, nothing is stored, no `receive_message` is broadcast, and
the sender gets the `error_message` failure notice instead. -/
theorem C4_broadcast_only_after_commit (sess : Option String) (m : String)
    (now : Nat) (db : DB) (u m' : String) (t : Nat)
    (hm : m ≠ "")
    (hbr : Event.receive_message u m' t
      ∈ (handle_send_message true sess (some m) now db).2) :
    (⟨db.nextId, u, m', t⟩ : ChatMessage)
      ∈ (handle_send_message true sess (some m) now db).1.messages ∧
    handle_send_message false sess (some m) now db
      = (db, [Event.error_message "Failed to send message."]) ∧
    Event.receive_message u m' t
      ∉ (handle_send_message false sess (some m) now db).2 := by
  have hev : (handle_send_message true sess (some m) now db).2
      = [Event.receive_message (sess.getD "Anonymous") m now] := by
    simp [handle_send_message, db_append, hm]
  rw [hev, List.mem_singleton] at hbr
  injection hbr with hu hm2 ht
  subst hu; subst hm2; subst ht
  refine ⟨?_, ?_, ?_⟩
  · simp [handle_send_message, db_append, hm]
  · simp [handle_send_message, hm]
  · simp [handle_send_message, hm]

/-- Witness for C4: `"alice"` sends `"hi"`; the broadcast row is stored,
and with a failing commit only the failure notice is emitted. -/
theorem C4_broadcast_only_after_commit_witness :
    (⟨0, "alice", "hi", 7⟩ : ChatMessage)
      ∈ (handle_send_message true (some "alice") (some "hi") 7 emptyDB).1.messages ∧
    handle_send_message false (some "alice") (some "hi") 7 emptyDB
      = (emptyDB, [Event.error_message "Failed to send message."]) ∧
    Event.receive_message "alice" "hi" 7
      ∉ (handle_send_message false (some "alice") (some "hi") 7 emptyDB).2 :=
  C4_broadcast_only_after_commit (some "alice") "hi" 7 emptyDB "alice" "hi" 7
    (by decide) (by decide)

/-- C5 counterexample: an empty (or missing) message body appends nothing
and broadcasts nothing — but contrary to the claim, the sender receives no
`error_message` acknowledgment either: the handler emits no event at all. -/
theorem C5_counterexample :
    handle_send_message true (some "alice") (some "") 0 emptyDB
      = (emptyDB, []) ∧
    handle_send_message true (some "alice") none 0 emptyDB
      = (emptyDB, []) ∧
    Event.error_message "Failed to send message."
      ∉ (handle_send_message true (some "alice") (some "") 0 emptyDB).2 :=
  ⟨by decide, by decide, by decide⟩

/-- C5 (amended): for every `send_message` whose body is empty or absent,
no record is appended, no `receive_message` is broadcast, and no event at
all is emitted to the sender — the message is silently ignored, without
even a soft `error_message` acknowledgment. -/
theorem C5_empty_message_ignored (persistOk : Bool) (sess : Option String)
    (data : Option String) (now : Nat) (db : DB)
    (h : data = none ∨ data = some "") :
    handle_send_message persistOk sess data now db = (db, []) := by
  rcases h with rfl | rfl <;> simp [handle_send_message]

/-- Witness for the amended C5. -/
theorem C5_empty_message_ignored_witness :
    handle_send_message true (some "bob") (some "") 3 emptyDB
      = (emptyDB, []) :=
  C5_empty_message_ignored true (some "bob") (some "") 3 emptyDB (by decide)

/-- C6: on socket connect, a session with a bound identity (a non-empty
display name, per the data model) is admitted to `online_users` (its
socket id maps to that identity) and a presence broadcast is emitted; a
session without a truthy bound identity — absent or empty — is refused
(`False` returned), with no registry change and no broadcast. -/
theorem C6_connect_admit_or_refuse (sid : Nat) (u : String)
    (ou : OnlineUsers) (hu : u ≠ "") :
    handle_connect (some u) sid ou
      = (dictInsert sid u ou,
          [Event.update_presence (snapshot (dictInsert sid u ou))], true) ∧
    dictLookup sid (dictInsert sid u ou) = some u ∧
    u ∈ snapshot (dictInsert sid u ou) ∧
    handle_connect none sid ou = (ou, [], false) ∧
    handle_connect (some "") sid ou = (ou, [], false) := by
  refine ⟨?_, dictLookup_dictInsert_self sid u ou,
    mem_snapshot_dictInsert sid u ou, rfl, rfl⟩
  simp [handle_connect, hu]

/-- Witness for C6: `"carol"`'s socket 1 is admitted alongside socket 2. -/
theorem C6_connect_admit_or_refuse_witness :
    handle_connect (some "carol") 1 [(2, "dan")]
      = (dictInsert 1 "carol" [(2, "dan")],
          [Event.update_presence (snapshot (dictInsert 1 "carol" [(2, "dan")]))],
          true) ∧
    dictLookup 1 (dictInsert 1 "carol" [(2, "dan")]) = some "carol" ∧
    "carol" ∈ snapshot (dictInsert 1 "carol" [(2, "dan")]) ∧
    handle_connect none 1 [(2, "dan")] = ([(2, "dan")], [], false) ∧
    handle_connect (some "") 1 [(2, "dan")] = ([(2, "dan")], [], false) :=
  C6_connect_admit_or_refuse 1 "carol" [(2, "dan")] (by decide)

/-- C7: the snapshot right after a connection's admit contains its
identity; right after its remove, the socket id is gone and its name
appears in the snapshot exactly when another live connection carries the
same name. -/
theorem C7_snapshot_after_admit_remove (sid : Nat) (u : String)
    (ou : OnlineUsers) (hu : u ≠ "") (hnd : (ou.map Prod.fst).Nodup) :
    u ∈ snapshot (handle_connect (some u) sid ou).1 ∧
    dictLookup sid (handle_disconnect sid ou).1 = none ∧
    (u ∈ snapshot (handle_disconnect sid ou).1
      ↔ hasOtherConn sid u ou = true) := by
  refine ⟨?_, ?_, ?_⟩
  · have hadm : (handle_connect (some u) sid ou).1 = dictInsert sid u ou := by
      simp [handle_connect, hu]
    rw [hadm]
    exact mem_snapshot_dictInsert sid u ou
  · rw [handle_disconnect_fst]
    exact dictLookup_dictPop_self sid ou hnd
  · rw [handle_disconnect_fst]
    exact mem_snapshot_dictPop sid u ou hnd

/-- Witness for C7 with two live connections. -/
theorem C7_snapshot_after_admit_remove_witness :
    "carol" ∈ snapshot
        (handle_connect (some "carol") 1 [(1, "carol"), (2, "dan")]).1 ∧
    dictLookup 1 (handle_disconnect 1 [(1, "carol"), (2, "dan")]).1 = none ∧
    ("carol" ∈ snapshot (handle_disconnect 1 [(1, "carol"), (2, "dan")]).1
      ↔ hasOtherConn 1 "carol" [(1, "carol"), (2, "dan")] = true) :=
  C7_snapshot_after_admit_remove 1 "carol" [(1, "carol"), (2, "dan")]
    (by decide) (by decide)

/-- C8: removing an absent socket id is a no-op that raises nothing and
emits nothing, and a second disconnect for the same socket id neither
changes the registry nor emits anything (idempotence). -/
theorem C8_remove_idempotent (sid : Nat) (ou ou2 : OnlineUsers)
    (habs : dictLookup sid ou = none)
    (hnd : (ou2.map Prod.fst).Nodup) :
    handle_disconnect sid ou = (ou, []) ∧
    (handle_disconnect sid (handle_disconnect sid ou2).1).1
      = (handle_disconnect sid ou2).1 ∧
    (handle_disconnect sid (handle_disconnect sid ou2).1).2 = [] := by
  have hno : ∀ l, dictLookup sid l = none →
      handle_disconnect sid l = (l, []) := by
    intro l hl
    simp [handle_disconnect, hl, dictPop_of_absent sid l hl]
  have h2 : dictLookup sid (handle_disconnect sid ou2).1 = none := by
    rw [handle_disconnect_fst]
    exact dictLookup_dictPop_self sid ou2 hnd
  have h3 := hno _ h2
  exact ⟨hno ou habs, by rw [h3], by rw [h3]⟩

/-- Witness for C8: removing socket 1 from a registry that lacks it, and
disconnecting socket 1 twice from a registry that has it. -/
theorem C8_remove_idempotent_witness :
    handle_disconnect 1 [(2, "dan")] = ([(2, "dan")], []) ∧
    (handle_disconnect 1 (handle_disconnect 1 [(1, "carol"), (2, "dan")]).1).1
      = (handle_disconnect 1 [(1, "carol"), (2, "dan")]).1 ∧
    (handle_disconnect 1 (handle_disconnect 1 [(1, "carol"), (2, "dan")]).1).2
      = [] :=
  C8_remove_idempotent 1 [(2, "dan")] [(1, "carol"), (2, "dan")]
    (by decide) (by decide)

/-- C9 counterexample: a `send_message` from a session with no bound
identity is persisted anyway, authored `"Anonymous"`, and broadcast — the
send path does not require an authenticated sender. -/
theorem C9_counterexample :
    (handle_send_message true none (some "hi") 5 emptyDB).1.messages
      = [⟨0, "Anonymous", "hi", 5⟩] ∧
    Event.receive_message "Anonymous" "hi" 5
      ∈ (handle_send_message true none (some "hi") 5 emptyDB).2 :=
  ⟨by decide, by decide⟩

/-- C9 (amended): every message persisted through the send path is
authored by the session's bound identity when one exists, and by the
literal fallback `"Anonymous"` when the session has no bound identity;
the handler never rejects a sender for being unauthenticated. -/
theorem C9_author_from_session_or_anonymous (sess : Option String)
    (m : String) (now : Nat) (db : DB) (hm : m ≠ "") :
    (handle_send_message true sess (some m) now db).1.messages
      = db.messages ++ [⟨db.nextId, sess.getD "Anonymous", m, now⟩] := by
  simp [handle_send_message, db_append, hm]

/-- Witness for the amended C9: an unauthenticated sender's message is
stored as `"Anonymous"`. -/
theorem C9_author_from_session_or_anonymous_witness :
    (handle_send_message true none (some "yo") 9 emptyDB).1.messages
      = emptyDB.messages
        ++ [⟨emptyDB.nextId, (none : Option String).getD "Anonymous",
              "yo", 9⟩] :=
  C9_author_from_session_or_anonymous none "yo" 9 emptyDB (by decide)

/-- C10: logout clears only the session's identity binding: the whole
server state — in particular `online_users` — is untouched, so a live
connection admitted by that user stays registered and its name keeps
appearing in presence snapshots. -/
theorem C10_logout_preserves_presence (sess : Option String) (u v : String)
    (sid : Nat) (st : ServerState)
    (hauth : sess = some u)
    (hconn : (sid, v) ∈ st.online_users) :
    (logout sess st).state = st ∧
    (logout sess st).session = none ∧
    (logout sess st).events = [Event.user_left u] ∧
    (sid, v) ∈ (logout sess st).state.online_users ∧
    v ∈ snapshot (logout sess st).state.online_users := by
  subst hauth
  exact ⟨rfl, rfl, rfl, hconn, List.mem_map_of_mem Prod.snd hconn⟩

/-- Witness for C10: `"alice"` logs out while her socket 1 is connected. -/
theorem C10_logout_preserves_presence_witness :
    (logout (some "alice") ⟨emptyDB, [(1, "alice")]⟩).state
      = ⟨emptyDB, [(1, "alice")]⟩ ∧
    (logout (some "alice") ⟨emptyDB, [(1, "alice")]⟩).session = none ∧
    (logout (some "alice") ⟨emptyDB, [(1, "alice")]⟩).events
      = [Event.user_left "alice"] ∧
    (1, "alice")
      ∈ (logout (some "alice") ⟨emptyDB, [(1, "alice")]⟩).state.online_users ∧
    "alice" ∈ snapshot
        (logout (some "alice") ⟨emptyDB, [(1, "alice")]⟩).state.online_users :=
  C10_logout_preserves_presence (some "alice") "alice" "alice" 1
    ⟨emptyDB, [(1, "alice")]⟩ rfl (by decide)

end LANChat
